import Mathlib

/-!
# Verification of the CyberCheck attendance system

Shallow embedding of the trust-verification pipeline of the CyberCheck
repository (credential authority, geolocation evaluator, biometric matcher,
check-in orchestrator) together with proofs about the properties claimed in
the specification.

Modelling conventions:
* JavaScript strings are modelled as `List Char`; `str` converts a literal.
* JavaScript numbers used by the pipeline are modelled as `ℚ` (exact
  arithmetic); timestamps are `ℤ` (seconds).
* `crypto.subtle.deriveBits` (PBKDF2-SHA256) is a platform primitive that is
  not part of the repository; it is modelled as an explicit function
  parameter `derive : List Char → List Char → ℤ → List Char` mapping
  (password, salt, iterations) to a hex digest.
* `Math.sqrt` applied inside the landmark-displacement loop is likewise
  passed as a parameter `hypot : ℚ → ℚ → ℚ` (of the two coordinate deltas).
* Database tables are lists of records; every handler returns, besides its
  result and the updated database, the ordered list of data-access events it
  performed, which is what the temporal claims are about.
-/

/-- Convert a Lean string literal to the `List Char` model of JS strings. -/
def str (s : String) : List Char := s.data

/-- JS `String.prototype.split` with a one-character separator
(`storedHash.split("$")` in `verifyPassword`). -/
def splitOnChar (sep : Char) : List Char → List (List Char)
  | [] => [[]]
  | c :: cs =>
    let r := splitOnChar sep cs
    if c = sep then [] :: r
    else
      match r with
      | [] => [[c]]
      | h :: t => (c :: h) :: t

/-- JS `String.prototype.trim`. -/
def jsTrim (s : List Char) : List Char :=
  ((s.dropWhile Char.isWhitespace).reverse.dropWhile Char.isWhitespace).reverse

/-- `sanitizeInput` from `supabase/functions/auth/index.ts`:
`input.trim().replace(/[<>]/g, "")`. -/
def sanitizeInput (s : List Char) : List Char :=
  (jsTrim s).filter (fun c => !(c == '<' || c == '>'))

/-- Value of a leading run of decimal digits; `none` when there is none
(the `NaN` case of `parseInt`). -/
def digitsVal (s : List Char) : Option ℕ :=
  let ds := s.takeWhile Char.isDigit
  if ds.isEmpty then none
  else some (ds.foldl (fun n c => n * 10 + (c.toNat - 48)) 0)

/-- JS `parseInt(s, 10)`: skip whitespace, optional sign, leading digits;
`none` models `NaN`. -/
def parseIntJs (s : List Char) : Option ℤ :=
  let t := s.dropWhile Char.isWhitespace
  match t with
  | '-' :: rest => (digitsVal rest).map (fun n => -(n : ℤ))
  | '+' :: rest => (digitsVal rest).map (fun n => (n : ℤ))
  | _ => (digitsVal t).map (fun n => (n : ℤ))

/-- `hashPassword` from `supabase/functions/auth/index.ts` with the salt made
explicit (the source draws a random salt when none is supplied):
PBKDF2 digest serialized as `$pbkdf2$100000$<salt>$<hash>`. -/
def hashPassword (derive : List Char → List Char → ℤ → List Char)
    (password salt : List Char) : List Char :=
  str "$pbkdf2$100000$" ++ salt ++ ['$'] ++ derive password salt 100000

/-- `verifyPassword` from `supabase/functions/auth/index.ts`.
`none` models a thrown exception (`parseInt` returned `NaN` and
`deriveBits` rejected the iteration count); `some b` is a normal return. -/
def verifyPassword (derive : List Char → List Char → ℤ → List Char)
    (password storedHash : List Char) : Option Bool :=
  if (str "$pbkdf2$").isPrefixOf storedHash then
    let parts := splitOnChar '$' storedHash
    if parts.length ≠ 5 then some false
    else
      match parseIntJs (parts.getD 2 []) with
      | none => none
      | some iterations =>
        let salt := parts.getD 3 []
        let expectedHash := parts.getD 4 []
        some (derive password salt iterations == expectedHash)
  else
    some (password == storedHash)

/-- Hexadecimal digit (used by the spec-side hash grammar). -/
def isHexChar (c : Char) : Bool :=
  c.isDigit || ('a' ≤ c && c ≤ 'f') || ('A' ≤ c && c ≤ 'F')

/-- Modelled from the spec: the password-hash grammar
`$pbkdf2$<iterations>$<salt-hex>$<hash-hex>` (hex-encoded salt and digest).
The code itself never defines this predicate; it only tests the
`"$pbkdf2$"` prefix. -/
def matchesPbkdf2Grammar (h : List Char) : Bool :=
  match splitOnChar '$' h with
  | [e, tag, its, salt, digest] =>
      e.isEmpty && tag == str "pbkdf2" &&
      !its.isEmpty && its.all Char.isDigit &&
      !salt.isEmpty && salt.all isHexChar &&
      !digest.isEmpty && digest.all isHexChar
  | _ => false

/-! ## Biometric matcher (`src/lib/faceApi.ts`) -/

/-- Result record of `compareFaceEmbeddings` (`{match, distance}`; the field
`match` is renamed `isMatch` because `match` is a Lean keyword). -/
structure FaceCompareResult where
  isMatch : Bool
  distance : ℚ
deriving DecidableEq, Repr

/-- The accumulation loop of `compareFaceEmbeddings`:
`for i in 0..128: sum += (a[i] - b[i])^2`. -/
def sumSqDiff (a b : List ℚ) : ℚ :=
  (List.range 128).foldl (fun sum i => sum + (a.getD i 0 - b.getD i 0) ^ 2) 0

/-- `⌊√q · 10⁴ + 1/2⌋` computed exactly over `ℚ`:
the integer numerator of `parseFloat(Math.sqrt(q).toFixed(4))`
(ECMAScript `toFixed` rounds half away from zero for nonnegative input).
The equality with the real-number expression is proved in
`distFloor4_eq_floor_real`. -/
def distFloor4 (q : ℚ) : ℕ :=
  (Nat.sqrt ⌊4 * 10 ^ 8 * q⌋₊ + 1) / 2

/-- `compareFaceEmbeddings` from `src/lib/faceApi.ts`.
The source computes `distance = Math.sqrt(sum)` and then
`match = distance < 0.5` and `distance.toFixed(4)`; over exact arithmetic
`√sum < 1/2 ↔ sum < 1/4` (proved in `c8_compare_is_rounded_euclidean`), and
the rounded distance is `distFloor4 sum / 10⁴`. -/
def compareFaceEmbeddings (embedding1 embedding2 : List ℚ) : FaceCompareResult :=
  if embedding1.length ≠ 128 ∨ embedding2.length ≠ 128 then
    { isMatch := false, distance := 1 }
  else
    let sum := sumSqDiff embedding1 embedding2
    { isMatch := decide (sum < 1 / 4)
      distance := (distFloor4 sum : ℚ) / 10 ^ 4 }

/-- A face-api detection as consumed by `checkLiveness`:
bounding box, detector confidence, landmark positions. -/
structure FaceDetection where
  boxWidth : ℚ
  boxHeight : ℚ
  score : ℚ
  landmarks : List (ℚ × ℚ)
deriving DecidableEq

/-- The landmark-displacement average of `checkLiveness`:
`totalMovement += Math.sqrt(dx*dx + dy*dy)` over the landmark pairs, divided
by the number of landmarks of the previous detection (`hypot` stands for
`Math.sqrt(dx*dx + dy*dy)`; the landmark lists produced by the model always
have equal length 68, so the `zip` loses nothing). -/
def meanMovement (hypot : ℚ → ℚ → ℚ) (prev curr : FaceDetection) : ℚ :=
  let total := (prev.landmarks.zip curr.landmarks).foldl
    (fun t pc => t + hypot (pc.2.1 - pc.1.1) (pc.2.2 - pc.1.2)) 0
  total / prev.landmarks.length

/-- `checkLiveness` from `src/lib/faceApi.ts`, with the detection already
performed (`current = none` models "no face detected"). Returns `isLive`. -/
def checkLiveness (hypot : ℚ → ℚ → ℚ)
    (current : Option FaceDetection) (previous : Option FaceDetection) : Bool :=
  match current with
  | none => false
  | some d =>
    if d.boxWidth < 100 ∨ d.boxHeight < 100 then false
    else if d.score < 8 / 10 then false
    else
      match previous with
      | some p => !(meanMovement hypot p d < 1 / 10)
      | none => true

/-- Outcome of `FaceCapture.handleCapture`. -/
inductive FaceOutcome
  | retry
  | verificationFailed
  | captured (embedding : List ℚ)
deriving DecidableEq

/-- `handleCapture` from `src/components/FaceCapture.tsx`.
The loop runs `checkLiveness` on 3 samples (`samples`), each against
`previousDetectionRef.current`, which is not updated during the capture
(the 100 ms `processFrame` interval is stopped while `status = 'detecting'`),
so the same `previous` is used for all three samples.  `embedding` is the
result of `getFaceEmbedding` after the liveness loop. -/
def handleCapture (hypot : ℚ → ℚ → ℚ)
    (samples : List (Option FaceDetection)) (previous : Option FaceDetection)
    (modeVerify : Bool) (existingEmbedding : Option (List ℚ))
    (embedding : Option (List ℚ)) : FaceOutcome :=
  let livenessPass := (samples.filter (fun s => checkLiveness hypot s previous)).length
  if livenessPass < 2 then .retry
  else
    match embedding with
    | none => .retry
    | some emb =>
      match modeVerify, existingEmbedding with
      | true, some ex =>
        if !(compareFaceEmbeddings ex emb).isMatch then .verificationFailed
        else .captured emb
      | _, _ => .captured emb

/-- Modelled from the spec: liveness passes iff at least 2 of the 3 samples
qualify, where a sample qualifies only if a face is detected with a box of at
least 100×100, confidence at least 0.8, and (granting the first sample, which
has no previous sample) mean landmark displacement relative to the previous
sample exceeding the 0.1 motion threshold. -/
def specLivenessPasses (hypot : ℚ → ℚ → ℚ)
    (samples : List (Option FaceDetection)) : Bool :=
  let qual : ℕ → Bool := fun i =>
    match samples.getD i none with
    | none => false
    | some d =>
      decide (100 ≤ d.boxWidth) && decide (100 ≤ d.boxHeight) &&
      decide ((8 : ℚ) / 10 ≤ d.score) &&
      (decide (i = 0) ||
        match samples.getD (i - 1) none with
        | some p => decide (1 / 10 < meanMovement hypot p d)
        | none => false)
  2 ≤ ((List.range samples.length).filter qual).length

/-! ## Geolocation trust evaluator (`src/lib/geolocation.ts`) -/

/-- Result of `detectFakeGPS`. Reason strings are short tags standing for
the user-facing messages of the source. -/
structure FakeCheck where
  isFake : Bool
  reasons : List String
deriving DecidableEq

/-- A `getCurrentLocation` result. -/
structure LocationData where
  latitude : ℚ
  longitude : ℚ
  accuracy : ℚ
deriving DecidableEq

/-- JS `String.prototype.includes`. -/
def containsSeq (needle : List Char) : List Char → Bool
  | [] => needle.isEmpty
  | c :: cs => needle.isPrefixOf (c :: cs) || containsSeq needle cs

/-- `detectFakeGPS` from `src/lib/geolocation.ts`.  `locRes = none` models
`getCurrentLocation` throwing, which lands in the `catch` with the flags
accumulated so far. -/
def detectFakeGPS (userAgentLower : List Char) (permissionDenied : Bool)
    (locRes : Option LocationData) : FakeCheck :=
  let fake1 := containsSeq (str "sdk") userAgentLower ||
    containsSeq (str "emulator") userAgentLower ||
    containsSeq (str "simulator") userAgentLower
  let reasons1 : List String := if fake1 then ["emulator-detected"] else []
  let reasons2 := reasons1 ++ (if permissionDenied then ["gps-permission-missing"] else [])
  match locRes with
  | none => { isFake := fake1, reasons := reasons2 ++ ["gps-check-error"] }
  | some loc =>
    let fake3 := fake1 || decide (loc.accuracy < 1)
    let reasons3 := reasons2 ++ (if decide (loc.accuracy < 1) then ["accuracy-too-perfect"] else [])
    let fake4 := fake3 || (decide (loc.accuracy = 0) || decide (loc.accuracy > 1000))
    let reasons4 := reasons3 ++
      (if decide (loc.accuracy = 0) || decide (loc.accuracy > 1000) then ["accuracy-invalid"] else [])
    { isFake := fake4, reasons := reasons4 }

/-! ## Check-in orchestrator (`src/pages/student/Checkin.tsx`) -/

/-- A lesson row as read by the PIN lookup. -/
structure Lesson where
  id : ℕ
  latitude : ℚ
  longitude : ℚ
  radiusMeters : Option ℚ
  pinCode : List Char
  pinExpiresAt : ℤ
  isActive : Bool
deriving DecidableEq

/-- Data-access events of one check-in attempt, in execution order.
`attendance…` events carry the written row's key fields. -/
inductive CheckinEv
  | lessonQuery
  | fakeGpsDetect
  | locationAcquired
  | gpsGateChecked (passed : Bool)
  | faceGateRun
  | attendanceSelect
  | attendanceUpsert (lessonId studentId : ℕ) (status : String) (isFakeGps : Bool)
  | attendanceInsert (lessonId studentId : ℕ) (status : String) (isFakeGps : Bool)
  | attendanceUpdate (lessonId studentId : ℕ) (status : String) (isFakeGps : Bool)
  | activityLog (action : String)
deriving DecidableEq

/-- Whether an event creates or mutates an AttendanceRecord row. -/
def CheckinEv.isAttendanceWrite : CheckinEv → Bool
  | .attendanceUpsert _ _ _ _ => true
  | .attendanceInsert _ _ _ _ => true
  | .attendanceUpdate _ _ _ _ => true
  | _ => false

/-- The `checkResult` the UI displays (user-facing message text elided). -/
structure CheckResult where
  success : Bool
  status : Option String
deriving DecidableEq

/-- `lesson.radius_meters || 120` (JS `||`: `null`/`0` both fall back). -/
def jsOrRadius (o : Option ℚ) (d : ℚ) : ℚ :=
  match o with
  | some x => if x = 0 then d else x
  | none => d

/-- The `locationData` component state stored by `handlePinSubmit`. -/
structure LocationState where
  latitude : ℚ
  longitude : ℚ
  distance : ℚ
  fakeCheck : FakeCheck
deriving DecidableEq

/-- `completeCheckin` from `src/pages/student/Checkin.tsx`:
the final completion step, called with `faceVerified = true` from
`handleFaceVerified`.  `attendanceExists` is the result of the existence
probe on `attendance` for `(lesson, student)`. -/
def completeCheckin (lesson : Lesson) (studentId : ℕ)
    (distance : ℚ) (fakeCheck : FakeCheck) (radiusMeters : ℚ)
    (faceVerified : Bool) (attendanceExists : Bool) :
    CheckResult × List CheckinEv :=
  let isWithinRadius := decide (distance ≤ radiusMeters)
  if fakeCheck.isFake || !isWithinRadius then
    ({ success := false, status := some "rejected" },
      [.gpsGateChecked false, .activityLog "checkin_rejected"])
  else
    let write := if attendanceExists
      then CheckinEv.attendanceUpdate lesson.id studentId "present" false
      else CheckinEv.attendanceInsert lesson.id studentId "present" false
    ({ success := true, status := some "present" },
      [.gpsGateChecked true, .attendanceSelect, write, .activityLog "checkin_success"])

/-- `handleFaceFailed` from `src/pages/student/Checkin.tsx`: a failed face
verification upserts a suspicious attendance row keyed by (lesson, student)
and writes an activity log. -/
def handleFaceFailed (lesson : Lesson) (studentId : ℕ) (ld : LocationState) :
    CheckResult × List CheckinEv :=
  ({ success := false, status := some "suspicious" },
    [.attendanceUpsert lesson.id studentId "suspicious" ld.fakeCheck.isFake,
      .activityLog "checkin_suspicious"])

/-- Where `handlePinSubmit` leaves the component. -/
inductive PinStage
  | aborted
  | finished (r : CheckResult)
  | toFace (lesson : Lesson) (ld : LocationState)
deriving DecidableEq

/-- `handlePinSubmit` from `src/pages/student/Checkin.tsx`:
PIN lookup, fake-GPS detection, location acquisition, then either the face
step (descriptor registered) or the terminal no-enrolment result.
`calcDist` stands for `calculateDistance` (haversine over JS floats);
`fakeCheck` is the `detectFakeGPS()` result; `locRes = none` models a
`getCurrentLocation` error. -/
def handlePinSubmit (calcDist : ℚ → ℚ → ℚ → ℚ → ℚ)
    (lessons : List Lesson) (now : ℤ) (isMobile : Bool)
    (fakeCheck : FakeCheck) (locRes : Option LocationData)
    (userFaceEmbedding : Option (List ℚ)) (pin : List Char) :
    PinStage × List CheckinEv :=
  if pin.length ≠ 6 then (.aborted, [])
  else if !isMobile then (.finished { success := false, status := none }, [])
  else
    match lessons.find? (fun l =>
        l.pinCode == pin && l.isActive && decide (now ≤ l.pinExpiresAt)) with
    | none => (.finished { success := false, status := none }, [.lessonQuery])
    | some lesson =>
      match locRes with
      | none =>
        (.finished { success := false, status := none }, [.lessonQuery, .fakeGpsDetect])
      | some loc =>
        let distance := calcDist loc.latitude loc.longitude lesson.latitude lesson.longitude
        let ld : LocationState :=
          { latitude := loc.latitude, longitude := loc.longitude
            distance := distance, fakeCheck := fakeCheck }
        match userFaceEmbedding with
        | some _ => (.toFace lesson ld, [.lessonQuery, .fakeGpsDetect, .locationAcquired])
        | none =>
          (.finished { success := false, status := some "suspicious" },
            [.lessonQuery, .fakeGpsDetect, .locationAcquired, .activityLog "checkin_failed"])

/-- One whole check-in attempt of the student check-in page: PIN stage, then
(when a descriptor is registered) one face-capture attempt feeding
`handleFaceVerified` / `handleFaceFailed`.  The result is `none` while the
page is still waiting (aborted PIN entry or a liveness retry). -/
def runCheckin (calcDist : ℚ → ℚ → ℚ → ℚ → ℚ) (hypot : ℚ → ℚ → ℚ)
    (lessons : List Lesson) (now : ℤ) (isMobile : Bool)
    (fakeCheck : FakeCheck) (locRes : Option LocationData)
    (userFaceEmbedding : Option (List ℚ)) (studentId : ℕ) (pin : List Char)
    (samples : List (Option FaceDetection)) (previous : Option FaceDetection)
    (capturedEmbedding : Option (List ℚ)) (attendanceExists : Bool) :
    Option CheckResult × List CheckinEv :=
  match handlePinSubmit calcDist lessons now isMobile fakeCheck locRes userFaceEmbedding pin with
  | (.aborted, evs) => (none, evs)
  | (.finished r, evs) => (some r, evs)
  | (.toFace lesson ld, evs) =>
    match handleCapture hypot samples previous true userFaceEmbedding capturedEmbedding with
    | .retry => (none, evs ++ [.faceGateRun])
    | .verificationFailed =>
      let fr := handleFaceFailed lesson studentId ld
      (some fr.1, evs ++ [.faceGateRun] ++ fr.2)
    | .captured _ =>
      let cr := completeCheckin lesson studentId ld.distance ld.fakeCheck
        (jsOrRadius lesson.radiusMeters 120) true attendanceExists
      (some cr.1, evs ++ [.faceGateRun] ++ cr.2)

/-! ## Credential authority (`supabase/functions/auth/index.ts`, login action) -/

/-- A `users` row (columns used by the login action). -/
structure UserRec where
  id : ℕ
  login : List Char
  passwordHash : List Char
  role : List Char
  isActive : Bool
  deviceFingerprint : Option (List Char)
deriving DecidableEq

/-- A `sessions` row. -/
structure SessionRec where
  userId : ℕ
  token : List Char
  refreshToken : List Char
  fingerprint : Option (List Char)
  expiresAt : ℤ
  refreshExpiresAt : ℤ
deriving DecidableEq

/-- A `login_attempts` row. -/
structure LoginAttemptRec where
  login : List Char
  ipAddress : List Char
  success : Bool
  createdAt : ℤ
deriving DecidableEq

/-- An `ip_rules` row. -/
structure IpRuleRec where
  ipAddress : List Char
  ruleType : List Char
  expiresAt : Option ℤ
deriving DecidableEq

/-- An `activity_logs` row (fields beyond actor and action elided). -/
structure ActivityLogRec where
  userId : ℕ
  action : String
deriving DecidableEq

/-- The relational store visible to the auth edge function. -/
structure AuthDB where
  users : List UserRec
  sessions : List SessionRec
  loginAttempts : List LoginAttemptRec
  ipRules : List IpRuleRec
  activityLogs : List ActivityLogRec
deriving DecidableEq

/-- SQL function `is_ip_blocked` from migration 20260128022531:
a non-expired blacklist rule for the IP exists. -/
def is_ip_blocked (db : AuthDB) (now : ℤ) (checkIp : List Char) : Bool :=
  db.ipRules.any (fun r =>
    r.ipAddress == checkIp && r.ruleType == str "blacklist" &&
    (match r.expiresAt with
      | none => true
      | some e => decide (now < e)))

/-- SQL function `is_login_rate_limited` from migration 20260128022531:
at least 5 failed attempts in the trailing 15 minutes matching the
submitted login or the caller IP. -/
def is_login_rate_limited (db : AuthDB) (now : ℤ)
    (checkLogin checkIp : List Char) : Bool :=
  5 ≤ (db.loginAttempts.filter (fun a =>
    (a.login == checkLogin || a.ipAddress == checkIp) && !a.success &&
    decide (now - 900 < a.createdAt))).length

/-- SQL function `record_login_attempt` from migration 20260128022531:
insert one row, then prune rows older than 24 hours. -/
def record_login_attempt (db : AuthDB) (now : ℤ)
    (pLogin pIp : List Char) (pSuccess : Bool) : AuthDB :=
  let inserted := db.loginAttempts ++
    [{ login := pLogin, ipAddress := pIp, success := pSuccess, createdAt := now }]
  { db with loginAttempts := inserted.filter (fun a => decide (now - 86400 ≤ a.createdAt)) }

/-- `validateCSRFToken` from `supabase/functions/auth/index.ts`:
`clientCSRF && headerCSRF && clientCSRF === headerCSRF`
(an absent or empty token is falsy). -/
def validateCSRFToken (bodyCsrf headerCsrf : Option (List Char)) : Bool :=
  match bodyCsrf, headerCsrf with
  | some b, some h => !b.isEmpty && !h.isEmpty && b == h
  | _, _ => false

/-- Data accesses and comparison points of the login action, in order. -/
inductive AuthEv
  | rpcIsIpBlocked
  | csrfCompared
  | rpcRateLimitCheck
  | dbUserLookup
  | passwordVerify
  | dbPasswordUpgradeWrite
  | dbDeviceBindWrite
  | rpcRecordAttempt (success : Bool)
  | dbSessionsDelete
  | dbSessionInsert
  | dbActivityLog (action : String)
deriving DecidableEq

/-- Whether an event reads or writes the database (the CSRF comparison and
the in-memory password check do not). -/
def AuthEv.isDbAccess : AuthEv → Bool
  | .csrfCompared => false
  | .passwordVerify => false
  | _ => true

/-- Outcome of the login action. -/
inductive LoginResult
  | ipBlocked
  | csrfError
  | validationError
  | rateLimited
  | invalidCredentials
  | deviceMismatch
  | loginOk (token refreshToken : List Char) (expiresAt refreshExpiresAt : ℤ)
  | systemError
deriving DecidableEq

/-- The token-issuance tail of a successful login:
record the successful attempt, delete every session row of the account,
insert one fresh session row (access expiry now+12 h, refresh expiry
now+7 d), append the audit log. -/
def finishLogin (db : AuthDB) (evs : List AuthEv) (now : ℤ) (u : UserRec)
    (sanitizedLogin clientIP : List Char) (bodyFingerprint : Option (List Char))
    (newToken newRefreshToken : List Char) :
    LoginResult × AuthDB × List AuthEv :=
  let db1 := record_login_attempt db now sanitizedLogin clientIP true
  let expiresAt := now + 12 * 3600
  let refreshExpiresAt := now + 7 * 86400
  let db2 := { db1 with sessions := db1.sessions.filter (fun s => !(s.userId == u.id)) }
  let newSession : SessionRec :=
    { userId := u.id, token := newToken, refreshToken := newRefreshToken
      fingerprint := bodyFingerprint
      expiresAt := expiresAt, refreshExpiresAt := refreshExpiresAt }
  let db3 := { db2 with sessions := db2.sessions ++ [newSession] }
  let db4 := { db3 with activityLogs := db3.activityLogs ++ [⟨u.id, "login_success"⟩] }
  (.loginOk newToken newRefreshToken expiresAt refreshExpiresAt, db4,
    evs ++ [.rpcRecordAttempt true, .dbSessionsDelete, .dbSessionInsert,
      .dbActivityLog "login_success"])

/-- The `login` action of `Deno.serve` in `supabase/functions/auth/index.ts`,
from the global IP-block check to token issuance.  Randomness
(`generateToken`, `generateRefreshToken`, `generateSalt`) is passed in as
`newToken`, `newRefreshToken`, `newSalt`. -/
def loginAction (derive : List Char → List Char → ℤ → List Char)
    (db : AuthDB) (now : ℤ) (clientIP : List Char)
    (bodyLogin bodyPassword : List Char) (bodyFingerprint : Option (List Char))
    (bodyCsrf headerCsrf : Option (List Char))
    (newToken newRefreshToken newSalt : List Char) :
    LoginResult × AuthDB × List AuthEv :=
  if is_ip_blocked db now clientIP then (.ipBlocked, db, [.rpcIsIpBlocked])
  else if !validateCSRFToken bodyCsrf headerCsrf then
    (.csrfError, db, [.rpcIsIpBlocked, .csrfCompared])
  else
    let sanitizedLogin := sanitizeInput bodyLogin
    let sanitizedPassword := sanitizeInput bodyPassword
    if sanitizedLogin.isEmpty || sanitizedPassword.isEmpty then
      (.validationError, db, [.rpcIsIpBlocked, .csrfCompared])
    else if is_login_rate_limited db now sanitizedLogin clientIP then
      (.rateLimited, db, [.rpcIsIpBlocked, .csrfCompared, .rpcRateLimitCheck])
    else
      match db.users.find? (fun u => u.login == sanitizedLogin && u.isActive) with
      | none =>
        (.invalidCredentials, record_login_attempt db now sanitizedLogin clientIP false,
          [.rpcIsIpBlocked, .csrfCompared, .rpcRateLimitCheck, .dbUserLookup,
            .rpcRecordAttempt false])
      | some u =>
        match verifyPassword derive sanitizedPassword u.passwordHash with
        | none =>
          (.systemError, db,
            [.rpcIsIpBlocked, .csrfCompared, .rpcRateLimitCheck, .dbUserLookup,
              .passwordVerify])
        | some false =>
          let db1 := record_login_attempt db now sanitizedLogin clientIP false
          let db2 := { db1 with activityLogs := db1.activityLogs ++ [⟨u.id, "login_failed"⟩] }
          (.invalidCredentials, db2,
            [.rpcIsIpBlocked, .csrfCompared, .rpcRateLimitCheck, .dbUserLookup,
              .passwordVerify, .rpcRecordAttempt false, .dbActivityLog "login_failed"])
        | some true =>
          let legacy := !(str "$pbkdf2$").isPrefixOf u.passwordHash
          let db1 := if legacy then
              { db with users := db.users.map (fun v =>
                  if v.id = u.id then
                    { v with passwordHash := hashPassword derive sanitizedPassword newSalt }
                  else v) }
            else db
          let evs1 := [AuthEv.rpcIsIpBlocked, .csrfCompared, .rpcRateLimitCheck,
              .dbUserLookup, .passwordVerify] ++
            (if legacy then [AuthEv.dbPasswordUpgradeWrite] else [])
          if u.role == str "student" then
            match u.deviceFingerprint with
            | some dfp =>
              if bodyFingerprint ≠ some dfp then
                let db2 := record_login_attempt db1 now sanitizedLogin clientIP false
                let db3 := { db2 with activityLogs :=
                  db2.activityLogs ++ [⟨u.id, "login_failed"⟩] }
                (.deviceMismatch, db3,
                  evs1 ++ [.rpcRecordAttempt false, .dbActivityLog "login_failed"])
              else
                finishLogin db1 evs1 now u sanitizedLogin clientIP bodyFingerprint
                  newToken newRefreshToken
            | none =>
              let db2 := { db1 with users := db1.users.map (fun v =>
                  if v.id = u.id then { v with deviceFingerprint := bodyFingerprint } else v) }
              finishLogin db2 (evs1 ++ [AuthEv.dbDeviceBindWrite]) now u sanitizedLogin
                clientIP bodyFingerprint newToken newRefreshToken
          else
            finishLogin db1 evs1 now u sanitizedLogin clientIP bodyFingerprint
              newToken newRefreshToken

/-! ## Fixtures used by witnesses and counterexamples -/

/-- A concrete stand-in for the PBKDF2 digest function, used to instantiate
witnesses: hex output, different on the two passwords involved. -/
def derive0 : List Char → List Char → ℤ → List Char :=
  fun pw _ _ => if pw == str "a" then str "aa" else str "bb"

/-- A concrete active lesson: PIN 482913, radius 120 m, PIN valid until t=100. -/
def lessonA : Lesson :=
  { id := 1, latitude := 10, longitude := 20, radiusMeters := some 120
    pinCode := str "482913", pinExpiresAt := 100, isActive := true }

/-- A concrete face detection that passes the per-sample liveness filters. -/
def goodDetection : FaceDetection :=
  { boxWidth := 200, boxHeight := 200, score := 1, landmarks := [(0, 0)] }

/-- A concrete teacher account with a legacy (plaintext) stored hash. -/
def teacherUser : UserRec :=
  { id := 7, login := str "teach", passwordHash := str "pw"
    role := str "teacher", isActive := true, deviceFingerprint := none }

/-- A database holding `teacherUser` and one of its stale sessions. -/
def dbTeacher : AuthDB :=
  { users := [teacherUser]
    sessions := [{ userId := 7, token := str "old", refreshToken := str "oldr"
                   fingerprint := none, expiresAt := 5, refreshExpiresAt := 6 }]
    loginAttempts := [], ipRules := [], activityLogs := [] }

/-- A failed login attempt for `teachUser`'s login at time `i`. -/
def failedAttempt (i : ℤ) : LoginAttemptRec :=
  { login := str "teach", ipAddress := str "9.9.9.9", success := false, createdAt := i }

/-- `dbTeacher` with five recent failed attempts for the same login. -/
def dbRateLimited : AuthDB :=
  { dbTeacher with loginAttempts :=
      [failedAttempt 1, failedAttempt 2, failedAttempt 3, failedAttempt 4, failedAttempt 5] }

/-! ## Lemmas about `splitOnChar` -/

theorem splitOnChar_ne_nil (sep : Char) (l : List Char) : splitOnChar sep l ≠ [] := by
  induction l with
  | nil => simp [splitOnChar]
  | cons c cs ih =>
    simp only [splitOnChar]
    split
    · simp
    · cases h : splitOnChar sep cs with
      | nil => simp
      | cons a t => simp [h]

theorem splitOnChar_cons_sep (sep : Char) (l : List Char) :
    splitOnChar sep (sep :: l) = [] :: splitOnChar sep l := by
  simp [splitOnChar]

theorem splitOnChar_cons_ne_of {sep c : Char} {l : List Char} {hd : List Char}
    {tl : List (List Char)} (h : c ≠ sep) (heq : splitOnChar sep l = hd :: tl) :
    splitOnChar sep (c :: l) = (c :: hd) :: tl := by
  simp [splitOnChar, h, heq]

theorem splitOnChar_append_no_sep {sep : Char} {hd : List Char} {tl : List (List Char)}
    (l r : List Char) (hl : ∀ c ∈ l, c ≠ sep) (heq : splitOnChar sep r = hd :: tl) :
    splitOnChar sep (l ++ r) = (l ++ hd) :: tl := by
  induction l with
  | nil => simpa using heq
  | cons c cs ih =>
    have hc : c ≠ sep := hl c (by simp)
    have ih' := ih (fun x hx => hl x (by simp [hx]))
    simpa using splitOnChar_cons_ne_of hc ih'

theorem splitOnChar_no_sep {sep : Char} (l : List Char) (hl : ∀ c ∈ l, c ≠ sep) :
    splitOnChar sep l = [l] := by
  have := @splitOnChar_append_no_sep sep [] [] l [] hl rfl
  simpa using this

/-! ## Lemmas about the password-hash serialization -/

theorem hashPassword_shape (derive : List Char → List Char → ℤ → List Char)
    (p salt : List Char) :
    hashPassword derive p salt =
      str "$pbkdf2$100000$" ++ (salt ++ ('$' :: derive p salt 100000)) := by
  simp [hashPassword, List.append_assoc]

theorem hashPassword_pbkdf2_start (derive : List Char → List Char → ℤ → List Char)
    (p salt : List Char) :
    (str "$pbkdf2$").isPrefixOf (hashPassword derive p salt) = true := by
  rw [hashPassword_shape, List.isPrefixOf_iff_prefix]
  have h1 : str "$pbkdf2$" <+: str "$pbkdf2$100000$" := by decide
  exact h1.trans (List.prefix_append _ _)

theorem splitOnChar_hashPassword (derive : List Char → List Char → ℤ → List Char)
    (p salt : List Char) (hs : ∀ c ∈ salt, c ≠ '$')
    (hd : ∀ c ∈ derive p salt 100000, c ≠ '$') :
    splitOnChar '$' (hashPassword derive p salt) =
      [[], str "pbkdf2", str "100000", salt, derive p salt 100000] := by
  rw [hashPassword_shape]
  have expand : str "$pbkdf2$100000$" ++ (salt ++ ('$' :: derive p salt 100000)) =
      '$' :: (str "pbkdf2" ++ ('$' :: (str "100000" ++
        ('$' :: (salt ++ ('$' :: derive p salt 100000)))))) := by
    have h0 : str "$pbkdf2$100000$" =
        '$' :: (str "pbkdf2" ++ ('$' :: (str "100000" ++ ['$']))) := by decide
    rw [h0]
    simp [List.append_assoc]
  rw [expand]
  have s1 : splitOnChar '$' (derive p salt 100000) = [derive p salt 100000] :=
    splitOnChar_no_sep _ hd
  have s2 : splitOnChar '$' ('$' :: derive p salt 100000) =
      [] :: [derive p salt 100000] := by
    rw [splitOnChar_cons_sep, s1]
  have s3 : splitOnChar '$' (salt ++ ('$' :: derive p salt 100000)) =
      salt :: [derive p salt 100000] := by
    have := splitOnChar_append_no_sep salt _ hs s2
    simpa using this
  have s4 : splitOnChar '$' ('$' :: (salt ++ ('$' :: derive p salt 100000))) =
      [] :: salt :: [derive p salt 100000] := by
    rw [splitOnChar_cons_sep, s3]
  have s5 : splitOnChar '$' (str "100000" ++ ('$' :: (salt ++ ('$' :: derive p salt 100000)))) =
      str "100000" :: salt :: [derive p salt 100000] := by
    have := splitOnChar_append_no_sep (str "100000") _ (by decide) s4
    simpa using this
  have s6 : splitOnChar '$'
      ('$' :: (str "100000" ++ ('$' :: (salt ++ ('$' :: derive p salt 100000))))) =
      [] :: str "100000" :: salt :: [derive p salt 100000] := by
    rw [splitOnChar_cons_sep, s5]
  have s7 : splitOnChar '$' (str "pbkdf2" ++
      ('$' :: (str "100000" ++ ('$' :: (salt ++ ('$' :: derive p salt 100000)))))) =
      str "pbkdf2" :: str "100000" :: salt :: [derive p salt 100000] := by
    have := splitOnChar_append_no_sep (str "pbkdf2") _ (by decide) s6
    simpa using this
  rw [splitOnChar_cons_sep, s7]

theorem verifyPassword_hashPassword (derive : List Char → List Char → ℤ → List Char)
    (p q salt : List Char) (hs : ∀ c ∈ salt, c ≠ '$')
    (hd : ∀ c ∈ derive p salt 100000, c ≠ '$') :
    verifyPassword derive q (hashPassword derive p salt) =
      some (derive q salt 100000 == derive p salt 100000) := by
  have hpre := hashPassword_pbkdf2_start derive p salt
  have hsplit := splitOnChar_hashPassword derive p salt hs hd
  have hparse : parseIntJs (str "100000") = some 100000 := by decide
  simp only [verifyPassword, hpre, if_true, hsplit]
  norm_num [List.getD, hparse]

theorem verifyPassword_legacy (derive : List Char → List Char → ℤ → List Char)
    (p stored : List Char) (h : (str "$pbkdf2$").isPrefixOf stored = false) :
    verifyPassword derive p stored = some (p == stored) := by
  simp [verifyPassword, h]

/-- C4: for every password `p` (and every salt and every digest function with
hex output — `crypto.subtle.deriveBits` is a platform primitive, modelled as
the parameter `derive`; dollar-free outputs and distinct digests for the two
distinct inputs are the properties PBKDF2 provides), verifying `p` against
`hashPassword p` succeeds and verifying `p ++ "x"` against it fails. -/
theorem c4_verify_roundtrip (derive : List Char → List Char → ℤ → List Char)
    (p salt : List Char) (hs : ∀ c ∈ salt, c ≠ '$')
    (hd : ∀ c ∈ derive p salt 100000, c ≠ '$')
    (hneq : derive (p ++ str "x") salt 100000 ≠ derive p salt 100000) :
    verifyPassword derive p (hashPassword derive p salt) = some true ∧
    verifyPassword derive (p ++ str "x") (hashPassword derive p salt) = some false := by
  constructor
  · rw [verifyPassword_hashPassword derive p p salt hs hd]
    simp
  · rw [verifyPassword_hashPassword derive p (p ++ str "x") salt hs hd]
    simp [hneq]

/-- Witness for C4 at the concrete digest function `derive0`, password "a",
salt "00". -/
theorem c4_verify_roundtrip_witness :
    verifyPassword derive0 (str "a") (hashPassword derive0 (str "a") (str "00")) = some true ∧
    verifyPassword derive0 (str "a" ++ str "x")
      (hashPassword derive0 (str "a") (str "00")) = some false :=
  c4_verify_roundtrip derive0 (str "a") (str "00") (by decide) (by decide) (by decide)

/-- C5 counterexample: the stored string `$pbkdf2$x` does not match the
`$pbkdf2$` grammar, yet submitting the identical string as the password is
rejected — verification for this account is *not* plain equality (the code
branches on the `"$pbkdf2$"` prefix, not on the grammar). -/
theorem c5_grammar_counterexample :
    matchesPbkdf2Grammar (str "$pbkdf2$x") = false ∧
    verifyPassword derive0 (str "$pbkdf2$x") (str "$pbkdf2$x") = some false ∧
    (str "$pbkdf2$x" == str "$pbkdf2$x") = true := by
  decide

/-! ## Biometric matcher: lemmas and claims C8, C10 -/

theorem foldl_range_add (n : ℕ) (g : ℕ → ℚ) (c : ℚ) :
    (List.range n).foldl (fun s i => s + g i) c = c + ∑ i ∈ Finset.range n, g i := by
  induction n generalizing c with
  | zero => simp
  | succ m ih =>
    rw [List.range_succ, List.foldl_append]
    simp [ih, Finset.sum_range_succ, add_assoc]

theorem sumSqDiff_eq_sum (a b : List ℚ) :
    sumSqDiff a b = ∑ i ∈ Finset.range 128, (a.getD i 0 - b.getD i 0) ^ 2 := by
  rw [sumSqDiff, foldl_range_add]
  simp

theorem sumSqDiff_self (a : List ℚ) : sumSqDiff a a = 0 := by
  rw [sumSqDiff_eq_sum]
  simp

theorem sumSqDiff_nonneg (a b : List ℚ) : 0 ≤ sumSqDiff a b := by
  rw [sumSqDiff_eq_sum]
  exact Finset.sum_nonneg fun i _ => sq_nonneg _

theorem natFloor_real_sqrt (x : ℝ) (hx : 0 ≤ x) : ⌊Real.sqrt x⌋₊ = Nat.sqrt ⌊x⌋₊ := by
  have h1 : ((Nat.sqrt ⌊x⌋₊ : ℝ)) ≤ Real.sqrt x := by
    rw [Real.le_sqrt (by positivity) hx]
    calc ((Nat.sqrt ⌊x⌋₊ : ℝ)) ^ 2 = ((Nat.sqrt ⌊x⌋₊ ^ 2 : ℕ) : ℝ) := by push_cast; ring
      _ ≤ (⌊x⌋₊ : ℝ) := by exact_mod_cast Nat.sqrt_le' _
      _ ≤ x := Nat.floor_le hx
  have h2 : Real.sqrt x < (Nat.sqrt ⌊x⌋₊ : ℝ) + 1 := by
    rw [Real.sqrt_lt' (by positivity)]
    calc x < ⌊x⌋₊ + 1 := Nat.lt_floor_add_one x
      _ ≤ (((Nat.sqrt ⌊x⌋₊ + 1) ^ 2 : ℕ) : ℝ) := by
        exact_mod_cast Nat.succ_le_of_lt (Nat.lt_succ_sqrt' _)
      _ = ((Nat.sqrt ⌊x⌋₊ : ℝ) + 1) ^ 2 := by push_cast; ring
  rw [Nat.floor_eq_iff (by positivity)]
  exact ⟨h1, h2⟩

theorem natFloor_ratCast (q : ℚ) : ⌊((q : ℝ))⌋₊ = ⌊q⌋₊ := by
  rw [← Int.floor_toNat, ← Int.floor_toNat, Rat.floor_cast]

theorem distFloor4_eq_floor_real (q : ℚ) (hq : 0 ≤ q) :
    distFloor4 q = ⌊Real.sqrt (q : ℝ) * 10 ^ 4 + 1 / 2⌋₊ := by
  have key : Real.sqrt (q : ℝ) * 10 ^ 4 + 1 / 2 =
      (Real.sqrt (((4 * 10 ^ 8 * q : ℚ) : ℝ)) + 1) / ((2 : ℕ) : ℝ) := by
    rw [show (((4 * 10 ^ 8 * q : ℚ)) : ℝ) = (2 * 10 ^ 4) ^ 2 * (q : ℝ) by push_cast; ring]
    rw [Real.sqrt_mul (by positivity), Real.sqrt_sq (by positivity)]
    push_cast
    ring
  rw [key, Nat.floor_div_nat, Nat.floor_add_one (Real.sqrt_nonneg _),
    natFloor_real_sqrt _ (by positivity), natFloor_ratCast]
  rfl

/-- C8: for 128-float descriptors, `compareFaceEmbeddings` returns exactly
the Euclidean distance over the 128 dimensions rounded to 4 decimals
(ECMAScript `toFixed(4)`, half away from zero), the match flag holds iff the
(unrounded) distance is below 0.5, and comparing a descriptor with itself
yields `match = true`, `distance = 0`. -/
theorem c8_compare_is_rounded_euclidean (a b : List ℚ)
    (ha : a.length = 128) (hb : b.length = 128) :
    ((compareFaceEmbeddings a b).isMatch = true ↔
      Real.sqrt (∑ i ∈ Finset.range 128, ((a.getD i 0 : ℝ) - (b.getD i 0 : ℝ)) ^ 2)
        < 1 / 2) ∧
    ((compareFaceEmbeddings a b).distance : ℝ) =
      (⌊Real.sqrt (∑ i ∈ Finset.range 128, ((a.getD i 0 : ℝ) - (b.getD i 0 : ℝ)) ^ 2)
          * 10 ^ 4 + 1 / 2⌋₊ : ℝ) / 10 ^ 4 ∧
    compareFaceEmbeddings a a = { isMatch := true, distance := 0 } := by
  have hcast : ((sumSqDiff a b : ℚ) : ℝ) =
      ∑ i ∈ Finset.range 128, ((a.getD i 0 : ℝ) - (b.getD i 0 : ℝ)) ^ 2 := by
    rw [sumSqDiff_eq_sum]
    push_cast
    rfl
  have hguard : ¬(a.length ≠ 128 ∨ b.length ≠ 128) := by simp [ha, hb]
  refine ⟨?_, ?_, ?_⟩
  · rw [← hcast]
    simp only [compareFaceEmbeddings, hguard, if_false, decide_eq_true_eq]
    rw [Real.sqrt_lt' (by norm_num),
      show ((1 : ℝ) / 2) ^ 2 = (((1 : ℚ) / 4 : ℚ) : ℝ) by norm_num]
    exact_mod_cast Iff.rfl
  · rw [← hcast]
    simp only [compareFaceEmbeddings, hguard, if_false]
    rw [distFloor4_eq_floor_real _ (sumSqDiff_nonneg a b)]
    push_cast
    ring
  · have hguard2 : ¬(a.length ≠ 128 ∨ a.length ≠ 128) := by simp [ha]
    simp only [compareFaceEmbeddings, hguard2, if_false, sumSqDiff_self]
    norm_num [distFloor4]

/-- Witness for C8 at two concrete 128-float descriptors. -/
theorem c8_compare_is_rounded_euclidean_witness :
    ((compareFaceEmbeddings (List.replicate 128 (0 : ℚ))
        (List.replicate 128 (1 : ℚ))).isMatch = true ↔
      Real.sqrt (∑ i ∈ Finset.range 128,
        (((List.replicate 128 (0 : ℚ)).getD i 0 : ℝ) -
          ((List.replicate 128 (1 : ℚ)).getD i 0 : ℝ)) ^ 2) < 1 / 2) ∧
    ((compareFaceEmbeddings (List.replicate 128 (0 : ℚ))
        (List.replicate 128 (1 : ℚ))).distance : ℝ) =
      (⌊Real.sqrt (∑ i ∈ Finset.range 128,
          (((List.replicate 128 (0 : ℚ)).getD i 0 : ℝ) -
            ((List.replicate 128 (1 : ℚ)).getD i 0 : ℝ)) ^ 2) * 10 ^ 4 + 1 / 2⌋₊ : ℝ)
        / 10 ^ 4 ∧
    compareFaceEmbeddings (List.replicate 128 (0 : ℚ)) (List.replicate 128 (0 : ℚ)) =
      { isMatch := true, distance := 0 } :=
  c8_compare_is_rounded_euclidean (List.replicate 128 (0 : ℚ))
    (List.replicate 128 (1 : ℚ)) (by simp) (by simp)

/-- C10: whenever either argument is not a list of exactly 128 numbers,
`compareFaceEmbeddings` is total and returns `{match := false, distance := 1}`
(the length guard precedes the distance loop), so malformed descriptors can
never produce a biometric match. -/
theorem c10_malformed_never_match (a b : List ℚ)
    (h : a.length ≠ 128 ∨ b.length ≠ 128) :
    compareFaceEmbeddings a b = { isMatch := false, distance := 1 } := by
  simp [compareFaceEmbeddings, h]

/-- Witness for C10 at concrete malformed inputs. -/
theorem c10_malformed_never_match_witness :
    compareFaceEmbeddings [1] [] = { isMatch := false, distance := 1 } :=
  c10_malformed_never_match [1] [] (by simp)

/-! ## Liveness: lemmas and claim C9 -/

theorem compare_replicate0_self :
    compareFaceEmbeddings (List.replicate 128 (0 : ℚ)) (List.replicate 128 (0 : ℚ)) =
      { isMatch := true, distance := 0 } := by
  simp only [compareFaceEmbeddings, List.length_replicate, sumSqDiff_self]
  norm_num [distFloor4]

theorem checkLiveness_good_none :
    checkLiveness (fun _ _ => 0) (some goodDetection) none = true := by
  norm_num [checkLiveness, goodDetection]

/-- C9 counterexample: a perfectly static capture (zero landmark displacement,
modelled by the all-zero `hypot`) with no stored pre-capture detection makes
all 3 samples qualify in the code — the capture proceeds all the way to a
successful verification — while under the claim's rule (displacement relative
to the previous sample must exceed the motion threshold) at most the first
sample could qualify, so liveness would have to fail. -/
theorem c9_liveness_counterexample :
    (([some goodDetection, some goodDetection, some goodDetection].filter
        (fun s => checkLiveness (fun _ _ => 0) s none)).length = 3) ∧
    handleCapture (fun _ _ => 0)
        [some goodDetection, some goodDetection, some goodDetection] none true
        (some (List.replicate 128 (0 : ℚ))) (some (List.replicate 128 (0 : ℚ))) =
      .captured (List.replicate 128 (0 : ℚ)) ∧
    specLivenessPasses (fun _ _ => 0)
      [some goodDetection, some goodDetection, some goodDetection] = false := by
  have hfilter : ([some goodDetection, some goodDetection, some goodDetection].filter
      (fun s => checkLiveness (fun _ _ => 0) s none)).length = 3 := by
    simp [List.filter, checkLiveness_good_none]
  refine ⟨hfilter, ?_, ?_⟩
  · simp only [handleCapture, hfilter, compare_replicate0_self]
    norm_num
  · norm_num [specLivenessPasses, goodDetection, meanMovement, List.filter, List.range_succ]

/-- C9 (amended): the capture samples `checkLiveness` 3 times, each sample
compared against the single pre-capture detection (which does not change
between samples); a sample qualifies iff a face is detected with a box of at
least 100×100 and confidence at least 0.8 and — only when a pre-capture
detection exists — mean landmark displacement from it of at least 0.1; the
capture proceeds past the liveness gate iff at least 2 of the 3 samples
qualify. -/
theorem c9_liveness_rule (hypot : ℚ → ℚ → ℚ)
    (samples : List (Option FaceDetection)) (previous : Option FaceDetection)
    (modeVerify : Bool) (existing : Option (List ℚ))
    (h3 : samples.length = 3) :
    (∀ emb : List ℚ,
      handleCapture hypot samples previous modeVerify existing (some emb) ≠ .retry ↔
        2 ≤ (samples.filter (fun s => checkLiveness hypot s previous)).length) ∧
    (∀ s : Option FaceDetection, checkLiveness hypot s previous = true ↔
      ∃ d, s = some d ∧ 100 ≤ d.boxWidth ∧ 100 ≤ d.boxHeight ∧
        (8 : ℚ) / 10 ≤ d.score ∧
        ∀ p, previous = some p → (1 : ℚ) / 10 ≤ meanMovement hypot p d) := by
  constructor
  · intro emb
    constructor
    · intro hne
      by_contra hc
      push_neg at hc
      exact hne (by simp [handleCapture, hc])
    · intro hge hr
      simp only [handleCapture] at hr
      rw [if_neg (by omega)] at hr
      cases modeVerify <;> cases existing <;> simp only at hr
      · exact FaceOutcome.noConfusion hr
      · exact FaceOutcome.noConfusion hr
      · exact FaceOutcome.noConfusion hr
      · split at hr <;> exact FaceOutcome.noConfusion hr
  · intro s
    cases s with
    | none => simp [checkLiveness]
    | some d =>
      simp only [checkLiveness]
      split
      · rename_i hbox
        constructor
        · intro h
          exact absurd h (by simp)
        · rintro ⟨d', hd', hw, hh, _, _⟩
          cases hd'
          rcases hbox with h | h
          · exact absurd hw (by exact not_le.mpr h)
          · exact absurd hh (by exact not_le.mpr h)
      · split
        · rename_i hbox hscore
          constructor
          · intro h
            exact absurd h (by simp)
          · rintro ⟨d', hd', _, _, hs, _⟩
            cases hd'
            exact absurd hs (not_le.mpr hscore)
        · rename_i hbox hscore
          push_neg at hbox
          cases previous with
          | none =>
            constructor
            · intro _
              exact ⟨d, rfl, hbox.1, hbox.2, not_lt.mp hscore, by simp⟩
            · intro _
              trivial
          | some p =>
            constructor
            · intro h
              refine ⟨d, rfl, hbox.1, hbox.2, not_lt.mp hscore, ?_⟩
              intro p' hp'
              cases hp'
              exact not_lt.mp (by simpa using h)
            · rintro ⟨d', hd', _, _, _, hm⟩
              cases hd'
              simpa using not_lt.mpr (hm p rfl)

/-- Witness for C9 (amended) at a concrete 3-sample capture. -/
theorem c9_liveness_rule_witness :
    (∀ emb : List ℚ,
      handleCapture (fun _ _ => 0)
          [some goodDetection, some goodDetection, some goodDetection] none true none
          (some emb) ≠ .retry ↔
        2 ≤ ([some goodDetection, some goodDetection, some goodDetection].filter
          (fun s => checkLiveness (fun _ _ => 0) s none)).length) ∧
    (∀ s : Option FaceDetection, checkLiveness (fun _ _ => 0) s none = true ↔
      ∃ d, s = some d ∧ 100 ≤ d.boxWidth ∧ 100 ≤ d.boxHeight ∧
        (8 : ℚ) / 10 ≤ d.score ∧
        ∀ p, (none : Option FaceDetection) = some p →
          (1 : ℚ) / 10 ≤ meanMovement (fun _ _ => 0) p d) :=
  c9_liveness_rule (fun _ _ => 0)
    [some goodDetection, some goodDetection, some goodDetection] none true none (by simp)

/-! ## Check-in orchestrator: claims C1 and C2 -/

/-- C1 counterexample: the geolocation evaluation reports fake GPS
(`detectFakeGPS` flags accuracy 0), yet when face verification then fails the
check-in ends in Result(suspicious) — not rejected — and an AttendanceRecord
row is upserted for the (lesson, student) pair, with more than an audit log
entry written. -/
theorem c1_gps_reject_counterexample :
    detectFakeGPS (str "x") false
        (some { latitude := 10, longitude := 20, accuracy := 0 }) =
      { isFake := true, reasons := ["accuracy-too-perfect", "accuracy-invalid"] } ∧
    runCheckin (fun _ _ _ _ => 50) (fun _ _ => 0) [lessonA] 50 true
        { isFake := true, reasons := ["accuracy-too-perfect", "accuracy-invalid"] }
        (some { latitude := 10, longitude := 20, accuracy := 0 })
        (some (List.replicate 128 (0 : ℚ))) 42 (str "482913")
        [some goodDetection, some goodDetection, some goodDetection] none
        (some [1]) false =
      (some { success := false, status := some "suspicious" },
        [.lessonQuery, .fakeGpsDetect, .locationAcquired, .faceGateRun,
          .attendanceUpsert 1 42 "suspicious" true, .activityLog "checkin_suspicious"]) ∧
    (CheckinEv.attendanceUpsert 1 42 "suspicious" true).isAttendanceWrite = true := by
  refine ⟨by decide, ?_, by decide⟩
  have h1 : handlePinSubmit (fun _ _ _ _ => (50 : ℚ)) [lessonA] 50 true
      { isFake := true, reasons := ["accuracy-too-perfect", "accuracy-invalid"] }
      (some { latitude := 10, longitude := 20, accuracy := 0 })
      (some (List.replicate 128 (0 : ℚ))) (str "482913") =
      (.toFace lessonA
        { latitude := 10, longitude := 20, distance := 50
          fakeCheck := { isFake := true
                         reasons := ["accuracy-too-perfect", "accuracy-invalid"] } },
        [.lessonQuery, .fakeGpsDetect, .locationAcquired]) := by
    decide
  have hfil : ([some goodDetection, some goodDetection, some goodDetection].filter
      (fun s => checkLiveness (fun _ _ => 0) s none)).length = 3 := by
    simp [List.filter, checkLiveness_good_none]
  have hcap : handleCapture (fun _ _ => 0)
      [some goodDetection, some goodDetection, some goodDetection] none true
      (some (List.replicate 128 (0 : ℚ))) (some [1]) = .verificationFailed := by
    simp only [handleCapture, hfil]
    norm_num [compareFaceEmbeddings]
  simp only [runCheckin, h1, hcap]
  simp [lessonA, handleFaceFailed]

/-- C1 (amended): the claimed behaviour holds on the completion path — when a
check-in reaches `completeCheckin` with a verified face, a fake-GPS flag or an
out-of-radius distance yields Result(rejected) and only an audit log entry is
written, with no AttendanceRecord created or mutated.  (When face
verification fails, a suspicious AttendanceRecord is upserted regardless of
the geolocation outcome; with no registered descriptor the result is
suspicious with only an audit log.) -/
theorem c1_gps_reject_no_attendance
    (calcDist : ℚ → ℚ → ℚ → ℚ → ℚ) (hypot : ℚ → ℚ → ℚ)
    (lessons : List Lesson) (now : ℤ) (fakeCheck : FakeCheck) (loc : LocationData)
    (emb : List ℚ) (studentId : ℕ) (pin : List Char)
    (samples : List (Option FaceDetection)) (previous : Option FaceDetection)
    (captured : Option (List ℚ)) (attendanceExists : Bool)
    (lesson : Lesson) (cemb : List ℚ)
    (hp6 : pin.length = 6)
    (hfind : lessons.find? (fun l =>
      l.pinCode == pin && l.isActive && decide (now ≤ l.pinExpiresAt)) = some lesson)
    (hcap : handleCapture hypot samples previous true (some emb) captured =
      .captured cemb)
    (hgps : fakeCheck.isFake = true ∨
      ¬(calcDist loc.latitude loc.longitude lesson.latitude lesson.longitude ≤
        jsOrRadius lesson.radiusMeters 120)) :
    runCheckin calcDist hypot lessons now true fakeCheck (some loc) (some emb)
        studentId pin samples previous captured attendanceExists =
      (some { success := false, status := some "rejected" },
        [.lessonQuery, .fakeGpsDetect, .locationAcquired, .faceGateRun,
          .gpsGateChecked false, .activityLog "checkin_rejected"]) ∧
    ∀ e ∈ (runCheckin calcDist hypot lessons now true fakeCheck (some loc) (some emb)
        studentId pin samples previous captured attendanceExists).2,
      e.isAttendanceWrite = false := by
  have hcond : (fakeCheck.isFake ||
      !decide (calcDist loc.latitude loc.longitude lesson.latitude lesson.longitude ≤
        jsOrRadius lesson.radiusMeters 120)) = true := by
    rcases hgps with h | h
    · simp [h]
    · simp [h]
  have hrun : runCheckin calcDist hypot lessons now true fakeCheck (some loc) (some emb)
      studentId pin samples previous captured attendanceExists =
      (some { success := false, status := some "rejected" },
        [.lessonQuery, .fakeGpsDetect, .locationAcquired, .faceGateRun,
          .gpsGateChecked false, .activityLog "checkin_rejected"]) := by
    simp [runCheckin, handlePinSubmit, hp6, hfind, hcap, completeCheckin, hcond]
  refine ⟨hrun, ?_⟩
  rw [hrun]
  decide

/-- Witness for C1 (amended): distance 200 m against radius 120 m with a
genuine (non-fake) GPS fix and a successfully verified face. -/
theorem c1_gps_reject_no_attendance_witness :
    runCheckin (fun _ _ _ _ => 200) (fun _ _ => 0) [lessonA] 50 true
        { isFake := false, reasons := [] }
        (some { latitude := 10, longitude := 20, accuracy := 5 })
        (some (List.replicate 128 (0 : ℚ))) 42 (str "482913")
        [some goodDetection, some goodDetection, some goodDetection] none
        (some (List.replicate 128 (0 : ℚ))) false =
      (some { success := false, status := some "rejected" },
        [.lessonQuery, .fakeGpsDetect, .locationAcquired, .faceGateRun,
          .gpsGateChecked false, .activityLog "checkin_rejected"]) ∧
    ∀ e ∈ (runCheckin (fun _ _ _ _ => 200) (fun _ _ => 0) [lessonA] 50 true
        { isFake := false, reasons := [] }
        (some { latitude := 10, longitude := 20, accuracy := 5 })
        (some (List.replicate 128 (0 : ℚ))) 42 (str "482913")
        [some goodDetection, some goodDetection, some goodDetection] none
        (some (List.replicate 128 (0 : ℚ))) false).2,
      e.isAttendanceWrite = false :=
  c1_gps_reject_no_attendance (fun _ _ _ _ => 200) (fun _ _ => 0) [lessonA] 50
    { isFake := false, reasons := [] } { latitude := 10, longitude := 20, accuracy := 5 }
    (List.replicate 128 (0 : ℚ)) 42 (str "482913")
    [some goodDetection, some goodDetection, some goodDetection] none
    (some (List.replicate 128 (0 : ℚ))) false lessonA (List.replicate 128 (0 : ℚ))
    (by decide) (by decide)
    (by
      have hfil : ([some goodDetection, some goodDetection, some goodDetection].filter
          (fun s => checkLiveness (fun _ _ => 0) s none)).length = 3 := by
        simp [List.filter, checkLiveness_good_none]
      simp only [handleCapture, hfil, compare_replicate0_self]
      norm_num)
    (Or.inr (by decide))

/-- C2 counterexample: with a measured distance of 200 m against a 120 m
radius — a state in which the GPS gate must reject — the FaceGate still runs
and its failure outcome is decided and persisted (suspicious attendance
upsert); no GPS gate decision (`gpsGateChecked`) occurs anywhere in the
trace, so the FaceGate was not preceded by a passed GPS gate. -/
theorem c2_face_before_gps_counterexample :
    runCheckin (fun _ _ _ _ => 200) (fun _ _ => 0) [lessonA] 50 true
        { isFake := false, reasons := [] }
        (some { latitude := 10, longitude := 20, accuracy := 5 })
        (some (List.replicate 128 (0 : ℚ))) 42 (str "482913")
        [some goodDetection, some goodDetection, some goodDetection] none
        (some [1]) false =
      (some { success := false, status := some "suspicious" },
        [.lessonQuery, .fakeGpsDetect, .locationAcquired, .faceGateRun,
          .attendanceUpsert 1 42 "suspicious" false, .activityLog "checkin_suspicious"]) ∧
    ¬((200 : ℚ) ≤ jsOrRadius lessonA.radiusMeters 120) ∧
    (∀ b, CheckinEv.gpsGateChecked b ∉
      [CheckinEv.lessonQuery, .fakeGpsDetect, .locationAcquired, .faceGateRun,
        .attendanceUpsert 1 42 "suspicious" false, .activityLog "checkin_suspicious"]) := by
  refine ⟨?_, by decide, by decide⟩
  have h1 : handlePinSubmit (fun _ _ _ _ => (200 : ℚ)) [lessonA] 50 true
      { isFake := false, reasons := [] }
      (some { latitude := 10, longitude := 20, accuracy := 5 })
      (some (List.replicate 128 (0 : ℚ))) (str "482913") =
      (.toFace lessonA
        { latitude := 10, longitude := 20, distance := 200
          fakeCheck := { isFake := false, reasons := [] } },
        [.lessonQuery, .fakeGpsDetect, .locationAcquired]) := by
    decide
  have hfil : ([some goodDetection, some goodDetection, some goodDetection].filter
      (fun s => checkLiveness (fun _ _ => 0) s none)).length = 3 := by
    simp [List.filter, checkLiveness_good_none]
  have hcap : handleCapture (fun _ _ => 0)
      [some goodDetection, some goodDetection, some goodDetection] none true
      (some (List.replicate 128 (0 : ℚ))) (some [1]) = .verificationFailed := by
    simp only [handleCapture, hfil]
    norm_num [compareFaceEmbeddings]
  simp only [runCheckin, h1, hcap]
  simp [lessonA, handleFaceFailed]

/-- C2 (amended): the geolocation *evaluation* (fake-GPS detection and
distance measurement) does happen strictly before the biometric gate runs:
whenever the face stage is reached, the trace up to `faceGateRun` is exactly
the PIN lookup followed by the two geolocation events.  The GPS accept/reject
*decision*, however, is applied only in the completion step after face
verification succeeds, so a FaceGate outcome can be decided and persisted
without the GPS gate having passed. -/
theorem c2_gps_eval_before_face
    (calcDist : ℚ → ℚ → ℚ → ℚ → ℚ) (hypot : ℚ → ℚ → ℚ)
    (lessons : List Lesson) (now : ℤ) (fakeCheck : FakeCheck) (loc : LocationData)
    (emb : List ℚ) (studentId : ℕ) (pin : List Char)
    (samples : List (Option FaceDetection)) (previous : Option FaceDetection)
    (captured : Option (List ℚ)) (attendanceExists : Bool) (lesson : Lesson)
    (hp6 : pin.length = 6)
    (hfind : lessons.find? (fun l =>
      l.pinCode == pin && l.isActive && decide (now ≤ l.pinExpiresAt)) = some lesson) :
    CheckinEv.faceGateRun ∈ (runCheckin calcDist hypot lessons now true fakeCheck
      (some loc) (some emb) studentId pin samples previous captured attendanceExists).2 ∧
    (runCheckin calcDist hypot lessons now true fakeCheck (some loc) (some emb)
        studentId pin samples previous captured attendanceExists).2.takeWhile
        (fun e => !(e == CheckinEv.faceGateRun)) =
      [.lessonQuery, .fakeGpsDetect, .locationAcquired] := by
  cases hcap : handleCapture hypot samples previous true (some emb) captured with
  | retry =>
    constructor
    · simp [runCheckin, handlePinSubmit, hp6, hfind, hcap]
    · simp [runCheckin, handlePinSubmit, hp6, hfind, hcap, List.takeWhile]
      try decide
  | verificationFailed =>
    constructor
    · simp [runCheckin, handlePinSubmit, hp6, hfind, hcap, handleFaceFailed]
    · simp [runCheckin, handlePinSubmit, hp6, hfind, hcap, handleFaceFailed, List.takeWhile]
      try decide
  | captured cemb =>
    constructor
    · simp [runCheckin, handlePinSubmit, hp6, hfind, hcap, completeCheckin]
    · simp [runCheckin, handlePinSubmit, hp6, hfind, hcap, completeCheckin, List.takeWhile]
      try decide

/-- Witness for C2 (amended) at a concrete check-in that reaches the face
stage. -/
theorem c2_gps_eval_before_face_witness :
    CheckinEv.faceGateRun ∈ (runCheckin (fun _ _ _ _ => 50) (fun _ _ => 0) [lessonA] 50
      true { isFake := false, reasons := [] }
      (some { latitude := 10, longitude := 20, accuracy := 5 })
      (some (List.replicate 128 (0 : ℚ))) 42 (str "482913")
      [some goodDetection, some goodDetection, some goodDetection] none
      (some [1]) false).2 ∧
    (runCheckin (fun _ _ _ _ => 50) (fun _ _ => 0) [lessonA] 50 true
        { isFake := false, reasons := [] }
        (some { latitude := 10, longitude := 20, accuracy := 5 })
        (some (List.replicate 128 (0 : ℚ))) 42 (str "482913")
        [some goodDetection, some goodDetection, some goodDetection] none
        (some [1]) false).2.takeWhile (fun e => !(e == CheckinEv.faceGateRun)) =
      [.lessonQuery, .fakeGpsDetect, .locationAcquired] :=
  c2_gps_eval_before_face (fun _ _ _ _ => 50) (fun _ _ => 0) [lessonA] 50
    { isFake := false, reasons := [] } { latitude := 10, longitude := 20, accuracy := 5 }
    (List.replicate 128 (0 : ℚ)) 42 (str "482913")
    [some goodDetection, some goodDetection, some goodDetection] none
    (some [1]) false lessonA (by decide) (by decide)

/-! ## Credential authority: claims C3, C5, C6, C7 -/

/-- C3 counterexample: on a login request with mismatched CSRF tokens the
request is rejected, but a database access (the global IP-block RPC) has
already happened strictly before the CSRF comparison. -/
theorem c3_db_access_before_csrf_counterexample :
    ((loginAction derive0 dbTeacher 100 (str "1.2.3.4") (str "teach") (str "pw") none
        (some (str "t1")) (some (str "t2")) (str "tk") (str "rt") (str "00")).2.2.takeWhile
        (fun e => !(e == AuthEv.csrfCompared))).any AuthEv.isDbAccess = true ∧
    (loginAction derive0 dbTeacher 100 (str "1.2.3.4") (str "teach") (str "pw") none
        (some (str "t1")) (some (str "t2")) (str "tk") (str "rt") (str "00")).1 =
      .csrfError ∧
    (loginAction derive0 dbTeacher 100 (str "1.2.3.4") (str "teach") (str "pw") none
        (some (str "t1")) (some (str "t2")) (str "tk") (str "rt") (str "00")).2.2 =
      [.rpcIsIpBlocked, .csrfCompared] := by
  decide

/-- C3 (amended): the CSRF tokens must both be present (non-empty) and equal
byte-for-byte; otherwise the request is rejected, the database is unchanged,
and no login-specific data access happens — but one database read, the global
IP-block check, does precede the CSRF comparison. -/
theorem c3_csrf_double_submit
    (derive : List Char → List Char → ℤ → List Char) (db : AuthDB) (now : ℤ)
    (ip l pw : List Char) (fp : Option (List Char)) (b h : Option (List Char))
    (t rt salt : List Char)
    (hip : is_ip_blocked db now ip = false)
    (hcsrf : validateCSRFToken b h = false) :
    (∀ b' h' : Option (List Char), validateCSRFToken b' h' = true ↔
      ∃ s, b' = some s ∧ h' = some s ∧ s ≠ []) ∧
    loginAction derive db now ip l pw fp b h t rt salt =
      (.csrfError, db, [.rpcIsIpBlocked, .csrfCompared]) := by
  constructor
  · intro b' h'
    cases b' with
    | none => simp [validateCSRFToken]
    | some sb =>
      cases h' with
      | none => simp [validateCSRFToken]
      | some sh =>
        simp only [validateCSRFToken, Bool.and_eq_true, Bool.not_eq_true',
          beq_iff_eq, Option.some.injEq]
        constructor
        · rintro ⟨⟨hb, _⟩, heq⟩
          refine ⟨sb, rfl, heq.symm, ?_⟩
          intro hnil
          subst hnil
          simp at hb
        · rintro ⟨s, hs1, hs2, hs3⟩
          subst hs1
          subst hs2
          refine ⟨⟨?_, ?_⟩, rfl⟩ <;>
            cases sh with
            | nil => exact absurd rfl hs3
            | cons a as => rfl
  · simp [loginAction, hip, hcsrf]

/-- Witness for C3 (amended) at a concrete mismatched request. -/
theorem c3_csrf_double_submit_witness :
    (∀ b' h' : Option (List Char), validateCSRFToken b' h' = true ↔
      ∃ s, b' = some s ∧ h' = some s ∧ s ≠ []) ∧
    loginAction derive0 dbTeacher 100 (str "1.2.3.4") (str "teach") (str "pw") none
        (some (str "t1")) (some (str "t2")) (str "tk") (str "rt") (str "00") =
      (.csrfError, dbTeacher, [.rpcIsIpBlocked, .csrfCompared]) :=
  c3_csrf_double_submit derive0 dbTeacher 100 (str "1.2.3.4") (str "teach") (str "pw")
    none (some (str "t1")) (some (str "t2")) (str "tk") (str "rt") (str "00")
    (by decide) (by decide)

theorem record_login_attempt_sessions (db : AuthDB) (now : ℤ) (l ip : List Char)
    (b : Bool) : (record_login_attempt db now l ip b).sessions = db.sessions := rfl

theorem record_login_attempt_users (db : AuthDB) (now : ℤ) (l ip : List Char)
    (b : Bool) : (record_login_attempt db now l ip b).users = db.users := rfl

theorem filter_ne_then_eq (l : List SessionRec) (uid : ℕ) :
    (l.filter (fun s => !(s.userId == uid))).filter (fun s => s.userId == uid) = [] := by
  rw [List.filter_filter]
  simp

theorem mem_map_upgrade_hash (users : List UserRec) (uid : ℕ) (newHash : List Char) :
    ∀ v ∈ users.map (fun v =>
      if v.id = uid then { v with passwordHash := newHash } else v),
      v.id = uid → v.passwordHash = newHash := by
  intro v hv hid
  obtain ⟨w, hw, rfl⟩ := List.mem_map.1 hv
  by_cases hwid : w.id = uid
  · simp [hwid]
  · simp only [if_neg hwid] at hid ⊢
    exact absurd hid hwid

theorem loginAction_success_spine
    (derive : List Char → List Char → ℤ → List Char) (db : AuthDB) (now : ℤ)
    (ip l pw : List Char) (fp : Option (List Char)) (b h : Option (List Char))
    (t rt salt : List Char) (u : UserRec)
    (hip : is_ip_blocked db now ip = false)
    (hcsrf : validateCSRFToken b h = true)
    (hl : (sanitizeInput l).isEmpty = false)
    (hpw : (sanitizeInput pw).isEmpty = false)
    (hrate : is_login_rate_limited db now (sanitizeInput l) ip = false)
    (hfind : db.users.find? (fun v => v.login == sanitizeInput l && v.isActive) = some u)
    (hverify : verifyPassword derive (sanitizeInput pw) u.passwordHash = some true)
    (hdev : ∀ dfp, u.deviceFingerprint = some dfp → fp = some dfp) :
    ∃ dbMid extraEvs,
      loginAction derive db now ip l pw fp b h t rt salt =
        finishLogin dbMid
          ([AuthEv.rpcIsIpBlocked, .csrfCompared, .rpcRateLimitCheck, .dbUserLookup,
            .passwordVerify] ++
            (if (str "$pbkdf2$").isPrefixOf u.passwordHash then []
              else [AuthEv.dbPasswordUpgradeWrite]) ++ extraEvs)
          now u (sanitizeInput l) ip fp t rt ∧
      dbMid.sessions = db.sessions ∧
      (extraEvs = [] ∨ extraEvs = [AuthEv.dbDeviceBindWrite]) ∧
      ((str "$pbkdf2$").isPrefixOf u.passwordHash = false →
        ∀ v ∈ dbMid.users, v.id = u.id →
          v.passwordHash = hashPassword derive (sanitizeInput pw) salt) := by
  by_cases hleg : (str "$pbkdf2$").isPrefixOf u.passwordHash = true
  · by_cases hrole : (u.role == str "student") = true
    · cases hfp : u.deviceFingerprint with
      | some dfp =>
        have hfpe : fp = some dfp := hdev dfp hfp
        refine ⟨db, [], ?_, rfl, Or.inl rfl, by simp [hleg]⟩
        simp [loginAction, hip, hcsrf, hl, hpw, hrate, hfind, hverify, hleg, hrole,
          hfp, hfpe]
      | none =>
        refine ⟨{ db with users := db.users.map (fun v =>
            if v.id = u.id then { v with deviceFingerprint := fp } else v) },
          [AuthEv.dbDeviceBindWrite], ?_, rfl, Or.inr rfl, by simp [hleg]⟩
        simp [loginAction, hip, hcsrf, hl, hpw, hrate, hfind, hverify, hleg, hrole, hfp]
    · refine ⟨db, [], ?_, rfl, Or.inl rfl, by simp [hleg]⟩
      simp [loginAction, hip, hcsrf, hl, hpw, hrate, hfind, hverify, hleg, hrole]
  · by_cases hrole : (u.role == str "student") = true
    · cases hfp : u.deviceFingerprint with
      | some dfp =>
        have hfpe : fp = some dfp := hdev dfp hfp
        refine ⟨{ db with users := db.users.map (fun v =>
            if v.id = u.id then
              { v with passwordHash := hashPassword derive (sanitizeInput pw) salt }
            else v) }, [], ?_, rfl, Or.inl rfl,
          fun _ => mem_map_upgrade_hash db.users u.id _⟩
        simp [loginAction, hip, hcsrf, hl, hpw, hrate, hfind, hverify, hleg, hrole,
          hfp, hfpe]
      | none =>
        refine ⟨{ db with users := ((db.users.map (fun v =>
            if v.id = u.id then
              { v with passwordHash := hashPassword derive (sanitizeInput pw) salt }
            else v)).map (fun v =>
            if v.id = u.id then { v with deviceFingerprint := fp } else v)) },
          [AuthEv.dbDeviceBindWrite], ?_, rfl, Or.inr rfl, ?_⟩
        · simp [loginAction, hip, hcsrf, hl, hpw, hrate, hfind, hverify, hleg, hrole, hfp]
        · intro _ v hv hid
          obtain ⟨w, hw, rfl⟩ := List.mem_map.1 hv
          by_cases hwid : w.id = u.id
          · simp only [if_pos hwid]
            exact mem_map_upgrade_hash _ u.id _ w hw hwid
          · simp only [if_neg hwid] at hid ⊢
            exact absurd hid hwid
    · refine ⟨{ db with users := db.users.map (fun v =>
          if v.id = u.id then
            { v with passwordHash := hashPassword derive (sanitizeInput pw) salt }
          else v) }, [], ?_, rfl, Or.inl rfl,
        fun _ => mem_map_upgrade_hash db.users u.id _⟩
      simp [loginAction, hip, hcsrf, hl, hpw, hrate, hfind, hverify, hleg, hrole]

/-- C7: on every successful login all existing session rows of the account
are deleted and exactly one new row is inserted, with access expiry now+12 h
and refresh expiry now+7 d; afterwards the account has exactly that one
session row, and the refresh window exceeds the access window. -/
theorem c7_single_session_issue
    (derive : List Char → List Char → ℤ → List Char) (db : AuthDB) (now : ℤ)
    (ip l pw : List Char) (fp : Option (List Char)) (b h : Option (List Char))
    (t rt salt : List Char) (u : UserRec)
    (hip : is_ip_blocked db now ip = false)
    (hcsrf : validateCSRFToken b h = true)
    (hl : (sanitizeInput l).isEmpty = false)
    (hpw : (sanitizeInput pw).isEmpty = false)
    (hrate : is_login_rate_limited db now (sanitizeInput l) ip = false)
    (hfind : db.users.find? (fun v => v.login == sanitizeInput l && v.isActive) = some u)
    (hverify : verifyPassword derive (sanitizeInput pw) u.passwordHash = some true)
    (hdev : ∀ dfp, u.deviceFingerprint = some dfp → fp = some dfp) :
    (loginAction derive db now ip l pw fp b h t rt salt).1 =
      .loginOk t rt (now + 12 * 3600) (now + 7 * 86400) ∧
    (loginAction derive db now ip l pw fp b h t rt salt).2.1.sessions =
      db.sessions.filter (fun s => !(s.userId == u.id)) ++
        [{ userId := u.id, token := t, refreshToken := rt, fingerprint := fp,
           expiresAt := now + 12 * 3600, refreshExpiresAt := now + 7 * 86400 }] ∧
    (loginAction derive db now ip l pw fp b h t rt salt).2.1.sessions.filter
        (fun s => s.userId == u.id) =
      [{ userId := u.id, token := t, refreshToken := rt, fingerprint := fp,
         expiresAt := now + 12 * 3600, refreshExpiresAt := now + 7 * 86400 }] ∧
    (now + 12 * 3600 : ℤ) < now + 7 * 86400 := by
  obtain ⟨dbMid, extra, heq, hsess, _, _⟩ :=
    loginAction_success_spine derive db now ip l pw fp b h t rt salt u
      hip hcsrf hl hpw hrate hfind hverify hdev
  rw [heq]
  refine ⟨rfl, ?_, ?_, by omega⟩
  · simp [finishLogin, record_login_attempt, hsess]
  · simp [finishLogin, record_login_attempt, hsess, List.filter_append, filter_ne_then_eq]

/-- Witness for C7: a concrete teacher login over a database holding one
stale session for the account. -/
theorem c7_single_session_issue_witness :
    (loginAction derive0 dbTeacher 100 (str "1.2.3.4") (str "teach") (str "pw") none
        (some (str "tt")) (some (str "tt")) (str "tk") (str "rt") (str "00")).1 =
      .loginOk (str "tk") (str "rt") (100 + 12 * 3600) (100 + 7 * 86400) ∧
    (loginAction derive0 dbTeacher 100 (str "1.2.3.4") (str "teach") (str "pw") none
        (some (str "tt")) (some (str "tt")) (str "tk") (str "rt") (str "00")).2.1.sessions =
      dbTeacher.sessions.filter (fun s => !(s.userId == teacherUser.id)) ++
        [{ userId := teacherUser.id, token := str "tk", refreshToken := str "rt"
           fingerprint := none, expiresAt := 100 + 12 * 3600
           refreshExpiresAt := 100 + 7 * 86400 }] ∧
    (loginAction derive0 dbTeacher 100 (str "1.2.3.4") (str "teach") (str "pw") none
        (some (str "tt")) (some (str "tt")) (str "tk") (str "rt")
        (str "00")).2.1.sessions.filter (fun s => s.userId == teacherUser.id) =
      [{ userId := teacherUser.id, token := str "tk", refreshToken := str "rt"
         fingerprint := none, expiresAt := 100 + 12 * 3600
         refreshExpiresAt := 100 + 7 * 86400 }] ∧
    ((100 : ℤ) + 12 * 3600) < 100 + 7 * 86400 :=
  c7_single_session_issue derive0 dbTeacher 100 (str "1.2.3.4") (str "teach") (str "pw")
    none (some (str "tt")) (some (str "tt")) (str "tk") (str "rt") (str "00") teacherUser
    (by decide) (by decide) (by decide) (by decide) (by decide) (by decide) (by decide)
    (by simp [teacherUser])

/-- C6: when at least 5 failed login attempts in the trailing 15 minutes
match the submitted login or the caller IP, the login request is answered
with the rate-limit error and the database is unchanged — before any user
lookup or password check, even when the submitted credentials are correct. -/
theorem c6_rate_limited_blocks_before_credentials
    (derive : List Char → List Char → ℤ → List Char) (db : AuthDB) (now : ℤ)
    (ip l pw : List Char) (fp : Option (List Char)) (b h : Option (List Char))
    (t rt salt : List Char)
    (hip : is_ip_blocked db now ip = false)
    (hcsrf : validateCSRFToken b h = true)
    (hclean : sanitizeInput l = l)
    (hl : l.isEmpty = false)
    (hpw : (sanitizeInput pw).isEmpty = false)
    (hcount : 5 ≤ (db.loginAttempts.filter (fun a =>
      (a.login == l || a.ipAddress == ip) && !a.success &&
      decide (now - 900 < a.createdAt))).length)
    (hcred : ∃ u, u ∈ db.users ∧ u.login = l ∧ u.isActive = true ∧
      verifyPassword derive (sanitizeInput pw) u.passwordHash = some true) :
    loginAction derive db now ip l pw fp b h t rt salt =
      (.rateLimited, db, [.rpcIsIpBlocked, .csrfCompared, .rpcRateLimitCheck]) ∧
    AuthEv.dbUserLookup ∉
      [AuthEv.rpcIsIpBlocked, AuthEv.csrfCompared, AuthEv.rpcRateLimitCheck] ∧
    AuthEv.passwordVerify ∉
      [AuthEv.rpcIsIpBlocked, AuthEv.csrfCompared, AuthEv.rpcRateLimitCheck] := by
  have hrate : is_login_rate_limited db now l ip = true := by
    simp [is_login_rate_limited, hcount]
  refine ⟨?_, by decide, by decide⟩
  simp [loginAction, hip, hcsrf, hclean, hl, hpw, hrate]

/-- Witness for C6: five recent failed attempts for the same login block a
request carrying correct credentials. -/
theorem c6_rate_limited_blocks_before_credentials_witness :
    loginAction derive0 dbRateLimited 100 (str "1.2.3.4") (str "teach") (str "pw") none
        (some (str "tt")) (some (str "tt")) (str "tk") (str "rt") (str "00") =
      (.rateLimited, dbRateLimited,
        [.rpcIsIpBlocked, .csrfCompared, .rpcRateLimitCheck]) ∧
    AuthEv.dbUserLookup ∉
      [AuthEv.rpcIsIpBlocked, AuthEv.csrfCompared, AuthEv.rpcRateLimitCheck] ∧
    AuthEv.passwordVerify ∉
      [AuthEv.rpcIsIpBlocked, AuthEv.csrfCompared, AuthEv.rpcRateLimitCheck] :=
  c6_rate_limited_blocks_before_credentials derive0 dbRateLimited 100 (str "1.2.3.4")
    (str "teach") (str "pw") none (some (str "tt")) (some (str "tt")) (str "tk")
    (str "rt") (str "00") (by decide) (by decide) (by decide) (by decide) (by decide)
    (by decide) ⟨teacherUser, by decide, rfl, rfl, by decide⟩

/-- C5 (amended): a stored hash that does not *start with* `$pbkdf2$` is
verified by direct plaintext equality, and a successful login against such a
legacy hash performs exactly one upgrade write, replacing the stored value
with a `$pbkdf2$`-format hash of the submitted password. -/
theorem c5_legacy_verify_and_upgrade
    (derive : List Char → List Char → ℤ → List Char) (db : AuthDB) (now : ℤ)
    (ip l pw : List Char) (fp : Option (List Char)) (b h : Option (List Char))
    (t rt salt : List Char) (u : UserRec)
    (hip : is_ip_blocked db now ip = false)
    (hcsrf : validateCSRFToken b h = true)
    (hl : (sanitizeInput l).isEmpty = false)
    (hpw : (sanitizeInput pw).isEmpty = false)
    (hrate : is_login_rate_limited db now (sanitizeInput l) ip = false)
    (hfind : db.users.find? (fun v => v.login == sanitizeInput l && v.isActive) = some u)
    (hverify : verifyPassword derive (sanitizeInput pw) u.passwordHash = some true)
    (hdev : ∀ dfp, u.deviceFingerprint = some dfp → fp = some dfp)
    (hleg : (str "$pbkdf2$").isPrefixOf u.passwordHash = false) :
    (∀ p stored : List Char, (str "$pbkdf2$").isPrefixOf stored = false →
      verifyPassword derive p stored = some (p == stored)) ∧
    (loginAction derive db now ip l pw fp b h t rt salt).2.2.count
      AuthEv.dbPasswordUpgradeWrite = 1 ∧
    (∀ v ∈ (loginAction derive db now ip l pw fp b h t rt salt).2.1.users,
      v.id = u.id →
        v.passwordHash = hashPassword derive (sanitizeInput pw) salt ∧
        (str "$pbkdf2$").isPrefixOf v.passwordHash = true) := by
  obtain ⟨dbMid, extra, heq, _, hextra, hupg⟩ :=
    loginAction_success_spine derive db now ip l pw fp b h t rt salt u
      hip hcsrf hl hpw hrate hfind hverify hdev
  have husers : (loginAction derive db now ip l pw fp b h t rt salt).2.1.users =
      dbMid.users := by
    rw [heq]
    simp [finishLogin, record_login_attempt]
  refine ⟨fun p stored hst => verifyPassword_legacy derive p stored hst, ?_, ?_⟩
  · rw [heq]
    rcases hextra with rfl | rfl <;>
      simp [finishLogin, hleg, List.count_append, List.count_cons]
  · intro v hv hid
    rw [husers] at hv
    have hhash := hupg hleg v hv hid
    exact ⟨hhash, by rw [hhash]; exact hashPassword_pbkdf2_start derive (sanitizeInput pw) salt⟩

/-- Witness for C5 (amended): a concrete legacy (plaintext) account login. -/
theorem c5_legacy_verify_and_upgrade_witness :
    (∀ p stored : List Char, (str "$pbkdf2$").isPrefixOf stored = false →
      verifyPassword derive0 p stored = some (p == stored)) ∧
    (loginAction derive0 dbTeacher 100 (str "1.2.3.4") (str "teach") (str "pw") none
        (some (str "tt")) (some (str "tt")) (str "tk") (str "rt") (str "00")).2.2.count
      AuthEv.dbPasswordUpgradeWrite = 1 ∧
    (∀ v ∈ (loginAction derive0 dbTeacher 100 (str "1.2.3.4") (str "teach") (str "pw")
        none (some (str "tt")) (some (str "tt")) (str "tk") (str "rt")
        (str "00")).2.1.users,
      v.id = teacherUser.id →
        v.passwordHash = hashPassword derive0 (sanitizeInput (str "pw")) (str "00") ∧
        (str "$pbkdf2$").isPrefixOf v.passwordHash = true) :=
  c5_legacy_verify_and_upgrade derive0 dbTeacher 100 (str "1.2.3.4") (str "teach")
    (str "pw") none (some (str "tt")) (some (str "tt")) (str "tk") (str "rt") (str "00")
    teacherUser (by decide) (by decide) (by decide) (by decide) (by decide) (by decide)
    (by decide) (by simp [teacherUser]) (by decide)
